import Mathlib

/-!
Verification of the entry security camera program (`src/main.py`).

The program keeps a bounded `deque` of recent frames, samples a person
detector at a fixed interval, runs a debounced start/stop recording state
machine, and hands finished recordings to background save threads.  The
definitions below are a shallow embedding of that code: timestamps are
modelled as exact integers (the code uses `time.time()` only for monotone
comparisons and subtractions), frames are opaque identifiers, and prints
that signal events are modelled as an event list.
-/

namespace SecurityCam

/-- Frames are opaque; we identify a frame by its capture index. -/
abbrev Frame := Nat

/-- Timestamps; the code compares and subtracts `time.time()` values. -/
abbrev Time := Int

/-- `buffer_size = self.fps * self.buffer_seconds` (main.py line 64). -/
def bufferCapacity (fps bufferSeconds : Nat) : Nat := fps * bufferSeconds

/-- `self.frame_buffer.append(frame.copy())` on a `deque(maxlen=cap)`
(main.py lines 65 and 268): appending to a full deque evicts the oldest
(leftmost) element; a `maxlen=0` deque stays empty. -/
def pushBuf (cap : Nat) (buf : List Frame) (f : Frame) : List Frame :=
  if cap = 0 then []
  else if buf.length < cap then buf ++ [f]
  else buf.tail ++ [f]

/-- Pushing a whole sequence of frames into a buffer, oldest first. -/
def pushAll (cap : Nat) (buf : List Frame) (fs : List Frame) : List Frame :=
  fs.foldl (pushBuf cap) buf

lemma pushBuf_eq_drop (cap : Nat) (buf : List Frame) (f : Frame)
    (h : buf.length ≤ cap) :
    pushBuf cap buf f = (buf ++ [f]).drop (buf.length + 1 - cap) := by
  unfold pushBuf
  by_cases h0 : cap = 0
  · subst h0
    simp only [if_true, Nat.sub_zero]
    exact (List.drop_eq_nil_of_le (by simp)).symm
  · simp only [h0, if_false]
    by_cases hlt : buf.length < cap
    · simp [hlt, Nat.sub_eq_zero_of_le hlt]
    · have hEq : buf.length = cap := le_antisymm h (not_lt.mp hlt)
      have hpos : 0 < buf.length := by omega
      simp only [hlt, if_false, hEq, Nat.add_sub_cancel_left]
      cases buf with
      | nil => simp at hpos
      | cons a t => simp

lemma pushBuf_length_le (cap : Nat) (buf : List Frame) (f : Frame)
    (h : buf.length ≤ cap) : (pushBuf cap buf f).length ≤ cap := by
  unfold pushBuf
  by_cases h0 : cap = 0
  · simp [h0]
  · by_cases hlt : buf.length < cap
    · simp [h0, hlt]; omega
    · have hEq : buf.length = cap := le_antisymm h (not_lt.mp hlt)
      simp [h0, hlt, List.length_tail]
      omega

lemma pushAll_eq_drop (cap : Nat) (buf fs : List Frame)
    (h : buf.length ≤ cap) :
    pushAll cap buf fs = (buf ++ fs).drop ((buf ++ fs).length - cap) := by
  induction fs generalizing buf with
  | nil =>
    simp [pushAll, Nat.sub_eq_zero_of_le h]
  | cons f fs ih =>
    have hstep : pushBuf cap buf f = (buf ++ [f]).drop (buf.length + 1 - cap) :=
      pushBuf_eq_drop cap buf f h
    have hlen : (pushBuf cap buf f).length ≤ cap := pushBuf_length_le cap buf f h
    have : pushAll cap buf (f :: fs) = pushAll cap (pushBuf cap buf f) fs := by
      simp [pushAll]
    rw [this, ih _ hlen, hstep]
    have hk : buf.length + 1 - cap ≤ (buf ++ [f]).length := by
      simp
    have hA : (buf ++ [f]) ++ fs = buf ++ f :: fs := by simp
    rw [← List.drop_append_of_le_length hk, List.drop_drop, hA]
    congr 1
    simp only [List.length_drop, List.length_append, List.length_cons,
      List.length_nil]
    omega

lemma pushAll_length_le (cap : Nat) (fs : List Frame) :
    (pushAll cap [] fs).length ≤ cap := by
  rw [pushAll_eq_drop cap [] fs (by simp)]
  simp only [List.nil_append, List.length_drop]
  omega

set_option maxRecDepth 4000 in
/-- C1: the frame ring buffer is a bounded FIFO.  For every sequence of
pushes into the empty buffer the length never exceeds the capacity
`fps * bufferSeconds`, and the contents are exactly the last `cap` pushed
frames in insertion order (oldest-first eviction).  With `bufferSeconds=5`
and `fps=30` the capacity is exactly 150 and after pushing frames
`0,…,199` a snapshot returns frames `50,…,199`, the last 150 in original
order. -/
theorem ringBuffer_bounded_fifo :
    (∀ (cap : Nat) (fs : List Frame),
      (pushAll cap [] fs).length ≤ cap
      ∧ pushAll cap [] fs = fs.drop (fs.length - cap))
    ∧ bufferCapacity 30 5 = 150
    ∧ pushAll (bufferCapacity 30 5) [] (List.range 200)
        = (List.range 200).drop 50 := by
  refine ⟨fun cap fs => ⟨pushAll_length_le cap fs, ?_⟩, by norm_num [bufferCapacity], ?_⟩
  · have := pushAll_eq_drop cap [] fs (by simp)
    simpa using this
  · have h := pushAll_eq_drop (bufferCapacity 30 5) [] (List.range 200) (by simp)
    simp only [List.nil_append, List.length_range] at h
    rw [h]
    norm_num [bufferCapacity]

/-! ## Detection and the monitoring loop

`detect_person` (main.py lines 149-168) and the body of `monitoring_loop`
(lines 258-297).  A `print` that signals an externally visible event is
modelled as an entry of an event list. -/

/-- Externally visible events (modelled from the program's prints and
side effects). -/
inductive Event where
  | recordingStarted (t : Time)
  | recordingStopped (t : Time)
  | detectorError (msg : String)
  | noFramesWarning
  | saveDirError
  | openError
  | artifactFailed
  | artifactPersisted
  | fallbackWarning
  | fatalError
deriving DecidableEq, Repr

/-- Outcome of one call into the YOLO model (`self.model(frame)` plus
result parsing): either a boolean "person present" or a raised
exception. -/
inductive DetectResult where
  | ok (b : Bool)
  | err (msg : String)
deriving DecidableEq, Repr

/-- A detector is the loaded model: a total map from frames to a result
that may be an exception.  `none` models `self.model is None`. -/
abbrev Detector := Frame → DetectResult

/-- `SecurityCamera.detect_person` (main.py lines 149-168): returns
`False` when no model is loaded; otherwise runs inference, and any
exception is caught, reported (the `検出エラー` print) and turned into
`False`. -/
def detect_person (model : Option Detector) (frame : Frame) :
    Bool × List Event :=
  match model with
  | none => (false, [])
  | some m =>
    match m frame with
    | .ok b => (b, [])
    | .err e => (false, [.detectorError e])

/-- Timing configuration of the monitoring loop. -/
structure Config where
  fps : Nat
  bufferSeconds : Nat
  /-- `self.recording_after_seconds` (main.py line 51). -/
  recordingAfterSeconds : Int
  /-- `detection_interval` (main.py line 252; `0.5` seconds). -/
  detectionInterval : Int

/-- Mutable state of `monitoring_loop` together with the relevant
`SecurityCamera` attributes. -/
structure LoopState where
  /-- `self.frame_buffer` -/
  frameBuffer : List Frame
  /-- the loop-local `last_detection_time` (sampling throttle) -/
  lastSampleTime : Time
  /-- `self.is_recording` -/
  isRecording : Bool
  /-- `self.recording_start_time` -/
  recordingStartTime : Option Time
  /-- `self.person_detected` -/
  personDetected : Bool
  /-- `self.last_detection_time` (attribute, set on each detection) -/
  lastDetectionTime : Time
  /-- frames handed to a save thread by `stop_recording`, in order -/
  savedArtifacts : List (List Frame)
  /-- number of `detect_person` invocations made so far -/
  detectCalls : Nat
  /-- events emitted so far -/
  events : List Event
deriving DecidableEq, Repr

/-- The state at program start (main.py lines 67-77): empty buffer, not
recording, both detection clocks at 0. -/
def initialState : LoopState :=
  { frameBuffer := []
    lastSampleTime := 0
    isRecording := false
    recordingStartTime := none
    personDetected := false
    lastDetectionTime := 0
    savedArtifacts := []
    detectCalls := 0
    events := [] }

/-- `SecurityCamera.start_recording` (main.py lines 311-319): no-op when
already recording, otherwise set the flag, record the start time and
announce the recording. -/
def start_recording (now : Time) (s : LoopState) : LoopState :=
  if s.isRecording then s
  else
    { s with
      isRecording := true
      recordingStartTime := some now
      events := s.events ++ [.recordingStarted now] }

/-- `SecurityCamera.stop_recording` (main.py lines 321-344): no-op when
not recording, otherwise clear the flags, snapshot the whole frame buffer
(`list(self.frame_buffer)`) and hand it to a save thread. -/
def stop_recording (now : Time) (s : LoopState) : LoopState :=
  if s.isRecording then
    { s with
      isRecording := false
      personDetected := false
      savedArtifacts := s.savedArtifacts ++ [s.frameBuffer]
      events := s.events ++ [.recordingStopped now] }
  else s

/-- The detection-handling part of one loop iteration, given the sampled
result `present` (main.py lines 276-288): a present sample refreshes
`last_detection_time` and starts recording when idle; an absent sample
stops the recording once `recording_after_seconds` have elapsed since the
last detection. -/
def handleSample (cfg : Config) (now : Time) (present : Bool)
    (s : LoopState) : LoopState :=
  if present then
    let s := { s with personDetected := true, lastDetectionTime := now }
    if s.isRecording then s else start_recording now s
  else if s.isRecording then
    if now - s.lastDetectionTime ≥ cfg.recordingAfterSeconds then
      stop_recording now s
    else s
  else s

/-- One iteration of `monitoring_loop` for a successfully captured frame
(main.py lines 258-297, status display and sleeps aside): append the
frame to the ring buffer, and when `detection_interval` has elapsed since
the last sample, run `detect_person` and feed the result to the recording
logic. -/
def loopStep (cfg : Config) (model : Option Detector) (s : LoopState)
    (now : Time) (frame : Frame) : LoopState :=
  let cap := bufferCapacity cfg.fps cfg.bufferSeconds
  let s := { s with frameBuffer := pushBuf cap s.frameBuffer frame }
  if now - s.lastSampleTime ≥ cfg.detectionInterval then
    let r := detect_person model frame
    let s := { s with
      lastSampleTime := now
      detectCalls := s.detectCalls + 1
      events := s.events ++ r.2 }
    handleSample cfg now r.1 s
  else s

/-- Running the loop over a list of timestamped captured frames. -/
def runLoop (cfg : Config) (model : Option Detector) (s : LoopState)
    (inputs : List (Time × Frame)) : LoopState :=
  inputs.foldl (fun s p => loopStep cfg model s p.1 p.2) s

/-- Concrete configuration used by witnesses: the program defaults
(`buffer_seconds=5`, `recording_after_seconds=5`, 30 fps), with the time
unit chosen as one second and a detection interval of 1. -/
def cfgW : Config :=
  { fps := 30, bufferSeconds := 5, recordingAfterSeconds := 5, detectionInterval := 1 }

/-- A detector that always reports a person, used by witnesses. -/
def alwaysPerson : Detector := fun _ => .ok true

/-- C3: from Idle, a person-present sample starts recording immediately
(`recording_start_time` is set to `now` and a recording-started event is
emitted, with no artifact produced); while already Recording, a further
person-present sample refreshes `last_detection_time` but does not
restart the session: the start time, the saved artifacts and the events
are untouched. -/
theorem present_sample_starts_or_refreshes (cfg : Config)
    (model : Option Detector) (s : LoopState) (now : Time) (frame : Frame)
    (hdue : now - s.lastSampleTime ≥ cfg.detectionInterval)
    (hpresent : (detect_person model frame).1 = true) :
    (s.isRecording = false →
       (loopStep cfg model s now frame).isRecording = true
       ∧ (loopStep cfg model s now frame).recordingStartTime = some now
       ∧ (loopStep cfg model s now frame).events
           = s.events ++ (detect_person model frame).2 ++ [.recordingStarted now]
       ∧ (loopStep cfg model s now frame).savedArtifacts = s.savedArtifacts)
    ∧ (s.isRecording = true →
       (loopStep cfg model s now frame).isRecording = true
       ∧ (loopStep cfg model s now frame).lastDetectionTime = now
       ∧ (loopStep cfg model s now frame).recordingStartTime = s.recordingStartTime
       ∧ (loopStep cfg model s now frame).savedArtifacts = s.savedArtifacts
       ∧ (loopStep cfg model s now frame).events
           = s.events ++ (detect_person model frame).2) := by
  constructor <;> intro h <;>
    simp [loopStep, handleSample, start_recording, hdue, hpresent, h]

/-- Witness for C3 at a concrete input: from the initial (idle) state, an
always-person detector sampled at time 1 starts the recording at 1. -/
theorem present_sample_starts_or_refreshes_witness :
    (loopStep cfgW (some alwaysPerson) initialState 1 0).isRecording = true
    ∧ (loopStep cfgW (some alwaysPerson) initialState 1 0).recordingStartTime
        = some 1
    ∧ (loopStep cfgW (some alwaysPerson) initialState 1 0).savedArtifacts = [] := by
  have h := present_sample_starts_or_refreshes cfgW (some alwaysPerson)
    initialState 1 0 (by decide) (by decide)
  exact ⟨(h.1 rfl).1, (h.1 rfl).2.1, (h.1 rfl).2.2.2⟩

/-- C5: the detection sampler is throttled.  When less than
`detection_interval` has elapsed since the last sample, the loop
iteration only appends the frame to the buffer: no detector invocation,
`last_detection_time` (the sampling clock) not updated.  When the
interval has elapsed, the detector is invoked exactly once and the
sampling clock is set to `now`. -/
theorem sampler_throttled (cfg : Config) (model : Option Detector)
    (s : LoopState) (now : Time) (frame : Frame) :
    (now - s.lastSampleTime < cfg.detectionInterval →
       loopStep cfg model s now frame
         = { s with frameBuffer :=
               pushBuf (bufferCapacity cfg.fps cfg.bufferSeconds) s.frameBuffer frame })
    ∧ (now - s.lastSampleTime ≥ cfg.detectionInterval →
       (loopStep cfg model s now frame).detectCalls = s.detectCalls + 1
       ∧ (loopStep cfg model s now frame).lastSampleTime = now) := by
  constructor
  · intro hlt
    simp [loopStep, not_le.mpr hlt]
  · intro hge
    simp only [loopStep, handleSample, start_recording, stop_recording]
    simp only [hge, if_true, ge_iff_le, le_refl]
    split <;> (try split) <;> (try split) <;> simp_all

/-- Witness for C5 at concrete inputs: with interval 1, a sample at time
0 from the initial state is skipped, and a sample at time 1 invokes the
detector once and moves the sampling clock to 1. -/
theorem sampler_throttled_witness :
    loopStep cfgW (some alwaysPerson) initialState 0 0
      = { initialState with
            frameBuffer := pushBuf (bufferCapacity cfgW.fps cfgW.bufferSeconds)
              initialState.frameBuffer 0 }
    ∧ (loopStep cfgW (some alwaysPerson) initialState 1 0).detectCalls
        = initialState.detectCalls + 1
    ∧ (loopStep cfgW (some alwaysPerson) initialState 1 0).lastSampleTime = 1 := by
  refine ⟨?_, ?_⟩
  · exact (sampler_throttled cfgW (some alwaysPerson) initialState 0 0).1 (by decide)
  · exact (sampler_throttled cfgW (some alwaysPerson) initialState 1 0).2 (by decide)

/-! ## The debounced stop condition (C4) -/

/-- Running the recording state machine (main.py lines 276-288) over a
sequence of timestamped detection samples. -/
def runSamples (cfg : Config) (s : LoopState)
    (samples : List (Time × Bool)) : LoopState :=
  samples.foldl (fun s p => handleSample cfg p.1 p.2 s) s

/-- `withinWindow postEvent d0 samples` holds when every absent sample of
`samples` occurs strictly less than `postEvent` after the most recent
present sample (`d0` for absent samples before the first present one).
This is the "present samples keep coming within the post-event window"
input class of the spec. -/
def withinWindow (postEvent : Int) : Time → List (Time × Bool) → Bool
  | _, [] => true
  | d0, (t, b) :: rest =>
    cond b (withinWindow postEvent t rest)
      (decide (t - d0 < postEvent) && withinWindow postEvent d0 rest)

lemma withinWindow_append (postEvent : Int) (d0 : Time)
    (pre suf : List (Time × Bool))
    (h : withinWindow postEvent d0 (pre ++ suf) = true) :
    withinWindow postEvent d0 pre = true := by
  induction pre generalizing d0 with
  | nil => simp [withinWindow]
  | cons p rest ih =>
    obtain ⟨t, b⟩ := p
    cases b with
    | true =>
      simp only [List.cons_append, withinWindow, cond_true] at h ⊢
      exact ih t h
    | false =>
      simp only [List.cons_append, withinWindow, cond_false,
        Bool.and_eq_true] at h ⊢
      exact ⟨h.1, ih d0 h.2⟩

lemma stays_recording (cfg : Config) (s : LoopState)
    (samples : List (Time × Bool))
    (hrec : s.isRecording = true)
    (hwin : withinWindow cfg.recordingAfterSeconds s.lastDetectionTime
      samples = true) :
    (runSamples cfg s samples).isRecording = true
    ∧ (runSamples cfg s samples).savedArtifacts = s.savedArtifacts
    ∧ (runSamples cfg s samples).recordingStartTime = s.recordingStartTime
    ∧ (runSamples cfg s samples).events = s.events := by
  induction samples generalizing s with
  | nil => exact ⟨hrec, rfl, rfl, rfl⟩
  | cons p rest ih =>
    obtain ⟨t, b⟩ := p
    have hfold : runSamples cfg s ((t, b) :: rest)
        = runSamples cfg (handleSample cfg t b s) rest := by
      simp [runSamples]
    cases b with
    | true =>
      simp only [withinWindow, cond_true] at hwin
      rw [hfold]
      have hstep : handleSample cfg t true s
          = { s with personDetected := true, lastDetectionTime := t } := by
        simp [handleSample, hrec]
      rw [hstep]
      exact ih _ hrec (by simpa using hwin)
    | false =>
      simp only [withinWindow, cond_false, Bool.and_eq_true,
        decide_eq_true_eq] at hwin
      rw [hfold]
      have hstep : handleSample cfg t false s = s := by
        simp [handleSample, hrec, not_le.mpr hwin.1]
      rw [hstep]
      exact ih s hrec hwin.2

/-- C4: the Recording state is left only on an absent sample taken when
the detection interval is due and at least `recording_after_seconds` have
elapsed since the last detection; consequently, for every sample sequence
in which, thanks to present samples arriving within the post-event
window, each absent sample falls strictly less than
`recording_after_seconds` after the latest present sample, the machine
stays in Recording at every prefix, emits no artifact, no event and does
not restart the session. -/
theorem recording_stop_debounced (cfg : Config) :
    (∀ (model : Option Detector) (s : LoopState) (now : Time) (frame : Frame),
      s.isRecording = true →
      (loopStep cfg model s now frame).isRecording = false →
      (detect_person model frame).1 = false
      ∧ now - s.lastSampleTime ≥ cfg.detectionInterval
      ∧ now - s.lastDetectionTime ≥ cfg.recordingAfterSeconds)
    ∧ (∀ (s : LoopState) (samples pre suf : List (Time × Bool)),
      s.isRecording = true →
      withinWindow cfg.recordingAfterSeconds s.lastDetectionTime samples = true →
      samples = pre ++ suf →
      (runSamples cfg s pre).isRecording = true
      ∧ (runSamples cfg s pre).savedArtifacts = s.savedArtifacts
      ∧ (runSamples cfg s pre).recordingStartTime = s.recordingStartTime
      ∧ (runSamples cfg s pre).events = s.events) := by
  constructor
  · intro model s now frame hrec hstop
    by_cases hdue : now - s.lastSampleTime ≥ cfg.detectionInterval
    · by_cases hpres : (detect_person model frame).1 = true
      · exfalso
        have hT : (loopStep cfg model s now frame).isRecording = true := by
          simp [loopStep, handleSample, hdue, hpres, hrec]
        rw [hT] at hstop
        simp at hstop
      · have hpres' : (detect_person model frame).1 = false := by
          simpa using hpres
        refine ⟨hpres', hdue, ?_⟩
        by_contra helapsed
        have hT : (loopStep cfg model s now frame).isRecording = true := by
          simp [loopStep, handleSample, stop_recording, hdue, hpres', hrec,
            helapsed]
        rw [hT] at hstop
        simp at hstop
    · have hT : (loopStep cfg model s now frame).isRecording = true := by
        simp [loopStep, hdue, hrec]
      rw [hT] at hstop
      simp at hstop
  · intro s samples pre suf hrec hwin hsplit
    subst hsplit
    exact stays_recording cfg s pre hrec
      (withinWindow_append _ _ pre suf hwin)

/-- A state in which a recording has just started from a detection at
time 0. -/
def recordingAt0 : LoopState :=
  { initialState with
    isRecording := true
    recordingStartTime := some 0
    personDetected := true
    lastDetectionTime := 0 }

/-- Rapidly alternating present/absent samples, each absent sample well
inside the 5-unit post-event window of the preceding present sample. -/
def altSamples : List (Time × Bool) :=
  [(0, true), (2, false), (4, true), (6, false), (8, true)]

/-- Witness for C4 at concrete inputs: with `recording_after_seconds = 5`,
a recording state that just detected at time 0 is stopped by an absent
sample at time 6 (so the stop really needs the full debounce condition),
while the alternating sample sequence present(0), absent(2), present(4),
absent(6), present(8) keeps every prefix in Recording with no artifact. -/
theorem recording_stop_debounced_witness :
    ((detect_person (some fun _ => .ok false) 0).1 = false
      ∧ (6 : Int) - recordingAt0.lastSampleTime ≥ cfgW.detectionInterval
      ∧ (6 : Int) - recordingAt0.lastDetectionTime ≥ cfgW.recordingAfterSeconds)
    ∧ ((runSamples cfgW recordingAt0 altSamples).isRecording = true
      ∧ (runSamples cfgW recordingAt0 altSamples).savedArtifacts
          = recordingAt0.savedArtifacts) := by
  have h := recording_stop_debounced cfgW
  refine ⟨h.1 (some fun _ => .ok false) recordingAt0 6 0 rfl (by decide), ?_⟩
  have h2 := h.2 recordingAt0 altSamples altSamples [] rfl (by decide)
    (by simp)
  exact ⟨h2.1, h2.2.1⟩

/-! ## Detector failures and detector absence (C6, C9) -/

/-- C6: every failure raised by the detector during inference is caught
and treated as "no person detected" for that sample: `detect_person`
returns `False` and reports the error.  Fed into the monitoring loop, a
failing sample never starts a recording and never produces an artifact,
so the failure does not propagate into the recording state machine. -/
theorem detector_failure_caught (m : Detector) (frame : Frame) (e : String)
    (h : m frame = .err e) :
    detect_person (some m) frame = (false, [.detectorError e])
    ∧ ∀ (cfg : Config) (s : LoopState) (now : Time),
        s.isRecording = false →
        (loopStep cfg (some m) s now frame).isRecording = false
        ∧ (loopStep cfg (some m) s now frame).savedArtifacts
            = s.savedArtifacts := by
  have hd : detect_person (some m) frame = (false, [.detectorError e]) := by
    simp [detect_person, h]
  refine ⟨hd, fun cfg s now hidle => ?_⟩
  by_cases hdue : now - s.lastSampleTime ≥ cfg.detectionInterval
  · constructor <;>
      simp [loopStep, handleSample, hdue, hd, hidle]
  · constructor <;> simp [loopStep, hdue, hidle]

/-- Witness for C6 at a concrete input: a detector that always raises is
reported and treated as "no person", and from the idle initial state the
loop neither starts recording nor emits an artifact. -/
theorem detector_failure_caught_witness :
    detect_person (some fun _ => .err "boom") 0
      = (false, [.detectorError "boom"])
    ∧ (loopStep cfgW (some fun _ => .err "boom") initialState 1 0).isRecording
        = false
    ∧ (loopStep cfgW (some fun _ => .err "boom") initialState 1 0).savedArtifacts
        = [] := by
  have h := detector_failure_caught (fun _ => .err "boom") 0 "boom" rfl
  exact ⟨h.1, (h.2 cfgW initialState 1 rfl).1, (h.2 cfgW initialState 1 rfl).2⟩

/-- Outcome of `SecurityCamera.start` (main.py lines 355-402). -/
structure StartOutcome where
  exitCode : Nat
  running : Bool
  events : List Event
deriving DecidableEq, Repr

/-- `SecurityCamera.start` (main.py lines 355-402): a camera that cannot
be opened raises and is caught as a fatal system error (exit code 1);
`initialize_yolo` returning `False` — among else because the YOLO
library or model is unavailable, in which case `self.model` stays `None`
— only prints the fallback warning (lines 367-369) and the system keeps
running. -/
def start (camOk : Bool) (model : Option Detector) : StartOutcome :=
  if camOk then
    if model.isSome then
      { exitCode := 0, running := true, events := [] }
    else
      { exitCode := 0, running := true, events := [.fallbackWarning] }
  else
    { exitCode := 1, running := false, events := [.fatalError] }

/-- C9: an absent detector is a valid runtime configuration, not a
startup failure: `start` completes with the system running and exit code
0, an explicit fallback warning is emitted, and the resulting policy is
total — every detection sample evaluates to "no person detected" without
error. -/
theorem detector_absence_not_fatal :
    (start true none).running = true
    ∧ (start true none).exitCode = 0
    ∧ (start true none).events = [Event.fallbackWarning]
    ∧ ∀ f : Frame, detect_person none f = (false, []) :=
  ⟨rfl, rfl, rfl, fun _ => rfl⟩

/-! ## Persistence: `save_video` (C7, C10) and the save threads (C8) -/

/-- The observable filesystem state at the destination: whether the save
directory was created, and the contents of the output file at the
destination path (`none` = no file). -/
structure Fs where
  dirCreated : Bool
  file : Option (List Frame)
deriving DecidableEq, Repr

/-- Behaviour of the filesystem and the `cv2.VideoWriter` during one
save: whether `os.makedirs` succeeds, whether the writer opens, the
index of the frame whose `out.write` raises (if any), and whether the
`os.remove` cleanup in the except branch succeeds — the source wraps it
in its own `try/except: pass` (main.py lines 244-247), so a failing
remove is anticipated and swallowed. -/
structure SinkBehavior where
  mkdirOk : Bool
  openOk : Bool
  failAt : Option Nat
  removeOk : Bool
deriving DecidableEq, Repr

/-- Result of `save_video`: the returned boolean, the final filesystem
state, the emitted events, and how many write passes were attempted. -/
structure SaveResult where
  ok : Bool
  fs : Fs
  events : List Event
  writeAttempts : Nat
deriving DecidableEq, Repr

/-- `SecurityCamera.save_video` (main.py lines 195-248): empty frame
lists are rejected before touching the filesystem; then the directory is
created, the writer opened, and all frames written in one pass.  An
exception while writing releases the writer, attempts to delete the
partially written file (`os.remove`, itself inside `try/except: pass`,
so a failing delete leaves the partial file behind) and returns `False`;
no retry happens. -/
def save_video (sink : SinkBehavior) (fs : Fs) (frames : List Frame) :
    SaveResult :=
  if frames.isEmpty then
    { ok := false, fs := fs, events := [.noFramesWarning], writeAttempts := 0 }
  else if !sink.mkdirOk then
    { ok := false, fs := fs, events := [.saveDirError], writeAttempts := 0 }
  else
    let fs := { fs with dirCreated := true }
    if !sink.openOk then
      { ok := false, fs := fs, events := [.openError], writeAttempts := 0 }
    else
      let writtenPrefix : List Frame :=
        match sink.failAt with
        | some k => frames.take k
        | none => frames
      let raised : Bool :=
        match sink.failAt with
        | some k => decide (k < frames.length)
        | none => false
      if raised then
        { ok := false
          fs := { fs with
            file := if sink.removeOk then none else some writtenPrefix }
          events := [.artifactFailed]
          writeAttempts := 1 }
      else
        { ok := true
          fs := { fs with file := some writtenPrefix }
          events := [.artifactPersisted]
          writeAttempts := 1 }

/-- Counterexample to C7: a persistence attempt in which the write
raises at frame 1 and the `os.remove` cleanup (anticipated to fail by
the source's `try/except: pass`, main.py lines 244-247) fails too — the
write has failed, yet the partial output file `[7]` remains at the
destination path. -/
theorem write_failure_partial_file_can_remain :
    (save_video ⟨true, true, some 1, false⟩ ⟨false, none⟩ [7, 8, 9]).ok = false
    ∧ (save_video ⟨true, true, some 1, false⟩ ⟨false, none⟩ [7, 8, 9]).fs.file
        = some [7] := by
  decide

/-- C7 as amended: when the video write fails partway, `save_video`
returns `False`, the failure is reported exactly once and the single
write pass is never retried; the partially written file is deleted when
the `os.remove` cleanup succeeds, but if that remove itself fails the
partial prefix remains at the destination path. -/
theorem write_failure_reported_once_no_retry (sink : SinkBehavior) (fs : Fs)
    (frames : List Frame) (k : Nat)
    (hmk : sink.mkdirOk = true) (hopen : sink.openOk = true)
    (hfail : sink.failAt = some k) (hk : k < frames.length) :
    (save_video sink fs frames).ok = false
    ∧ (save_video sink fs frames).events = [Event.artifactFailed]
    ∧ (save_video sink fs frames).events.count Event.artifactFailed = 1
    ∧ (save_video sink fs frames).writeAttempts = 1
    ∧ (sink.removeOk = true → (save_video sink fs frames).fs.file = none)
    ∧ (sink.removeOk = false →
        (save_video sink fs frames).fs.file = some (frames.take k)) := by
  have hne : frames.isEmpty = false := by
    cases frames with
    | nil => simp at hk
    | cons a l => rfl
  refine ⟨?_, ?_, ?_, ?_, fun hrm => ?_, fun hrm => ?_⟩
  · simp [save_video, hne, hmk, hopen, hfail, hk]
  · simp [save_video, hne, hmk, hopen, hfail, hk]
  · simp [save_video, hne, hmk, hopen, hfail, hk]
  · simp [save_video, hne, hmk, hopen, hfail, hk]
  · simp [save_video, hne, hmk, hopen, hfail, hk, hrm]
  · simp [save_video, hne, hmk, hopen, hfail, hk, hrm]

/-- Witness for the amended C7 at a concrete input: writing frames
`[7, 8, 9]` through a sink that raises at frame 1 and whose cleanup
remove succeeds. -/
theorem write_failure_reported_once_no_retry_witness :
    (save_video ⟨true, true, some 1, true⟩ ⟨false, none⟩ [7, 8, 9]).ok = false
    ∧ (save_video ⟨true, true, some 1, true⟩ ⟨false, none⟩ [7, 8, 9]).events
        = [Event.artifactFailed]
    ∧ (save_video ⟨true, true, some 1, true⟩ ⟨false, none⟩ [7, 8, 9]).events.count
        Event.artifactFailed = 1
    ∧ (save_video ⟨true, true, some 1, true⟩ ⟨false, none⟩ [7, 8, 9]).writeAttempts
        = 1
    ∧ (save_video ⟨true, true, some 1, true⟩ ⟨false, none⟩ [7, 8, 9]).fs.file
        = none := by
  have h := write_failure_reported_once_no_retry ⟨true, true, some 1, true⟩
    ⟨false, none⟩ [7, 8, 9] 1 rfl rfl rfl (by decide)
  exact ⟨h.1, h.2.1, h.2.2.1, h.2.2.2.1, h.2.2.2.2.1 rfl⟩

/-- C10: `save_video` on an empty frame list is a guarded no-op: it
returns `False` immediately, only warns, and leaves the filesystem
untouched — no directory created, no file written, no write pass. -/
theorem save_video_empty_is_noop (sink : SinkBehavior) (fs : Fs) :
    save_video sink fs []
      = { ok := false, fs := fs, events := [Event.noFramesWarning],
          writeAttempts := 0 } := rfl

/-- The save threads spawned by `stop_recording`: `running` holds the
artifacts whose daemon save thread has started and not yet finished, in
spawn order; `completed` the finished ones. -/
structure Dispatcher where
  running : List (List Frame)
  completed : List (List Frame)
deriving DecidableEq, Repr

/-- The dispatcher before any recording has been stopped. -/
def emptyDispatcher : Dispatcher := { running := [], completed := [] }

/-- `stop_recording` (main.py lines 338-344) creates a fresh daemon
thread per artifact and starts it immediately: the artifact joins the
running saves at once — there is no queue and no pool bound. -/
def submit (d : Dispatcher) (a : List Frame) : Dispatcher :=
  { d with running := d.running ++ [a] }

/-- A save thread finishing its `save_video` call. -/
def finishOldest (d : Dispatcher) : Dispatcher :=
  match d.running with
  | [] => d
  | a :: rest => { running := rest, completed := d.completed ++ [a] }

/-- Number of simultaneously running save threads. -/
def inFlight (d : Dispatcher) : Nat := d.running.length

/-- Counterexample to C8: submitting two artifacts in quick succession
(neither save finished) leaves two save threads running at the same
time, so persistence is not bounded by the claimed `K = 1`. -/
theorem bounded_concurrency_counterexample :
    inFlight (submit (submit emptyDispatcher [0]) [1]) = 2
    ∧ ¬ inFlight (submit (submit emptyDispatcher [0]) [1]) ≤ 1 := by
  decide

/-- C8 as amended: persistence is unbounded fire-and-forget.  Every
submission immediately starts its own save thread; the threads start in
submission (FIFO) order and none are dropped, but the number running
simultaneously equals the number of submitted-but-unfinished artifacts
and exceeds every bound once submissions outpace completions. -/
theorem submissions_spawn_unbounded (d : Dispatcher)
    (artifacts : List (List Frame)) :
    (artifacts.foldl submit d).running = d.running ++ artifacts
    ∧ inFlight (artifacts.foldl submit d) = inFlight d + artifacts.length := by
  induction artifacts generalizing d with
  | nil => simp
  | cons a rest ih =>
    have h := ih (submit d a)
    refine ⟨?_, ?_⟩
    · rw [List.foldl_cons, h.1]
      simp [submit]
    · rw [List.foldl_cons, h.2]
      simp [inFlight, submit]
      omega

/-! ## End-to-end run (C2)

The settings of the claim, measured in frame ticks of 1/2 s: the camera
negotiation (main.py lines 99-106) fixes `fps = 2`, so
`buffer_seconds = 5` → capacity 10 frames, `recording_after_seconds = 5`
→ 10 ticks, `detection_interval = 0.5` → 1 tick (the sampler fires at
every frame).  Frame `i` is captured at time `i`; the person is in view
exactly in frame 10, so the detection happens at `t0 = 10` ticks after
five full seconds of pre-event capture, and no person is seen
afterwards. -/

/-- The claim's configuration at 2 fps, in ticks of half a second. -/
def cfgTicks : Config :=
  { fps := 2, bufferSeconds := 5, recordingAfterSeconds := 10,
    detectionInterval := 1 }

/-- A detector that sees the person exactly in frame 10. -/
def personAt10 : Detector := fun f => .ok (decide (f = 10))

/-- Ten seconds of capture: frame `i` at time `i` for `i = 0,…,20`. -/
def endToEndInputs : List (Time × Frame) :=
  (List.range 21).map fun i => (Int.ofNat i, i)

set_option maxRecDepth 4000 in
/-- C2, run on the code: the detection at `t0 = 10` ticks with none
afterwards stops the session exactly 10 ticks (5 s) later, at `t = 20` —
but the persisted artifact is the final buffer contents, frames
`11,…,20`: every frame of the interval `[t0 - bufferSeconds, t0]`
(frames `0,…,10`, the pre-event window and even the detection frame
itself) has been evicted during the post-event wait, so the artifact
spans only `(t0, t0 + 5 s]` instead of the claimed
`[t0 - 5 s, t0 + 5 s]`. -/
theorem endToEnd_artifact_misses_pre_event_window :
    (runLoop cfgTicks (some personAt10) initialState endToEndInputs).events
      = [Event.recordingStarted 10, Event.recordingStopped 20]
    ∧ (runLoop cfgTicks (some personAt10) initialState
        endToEndInputs).savedArtifacts = [List.range' 11 10]
    ∧ (List.range' 11 10).all (fun f => decide (10 < f)) = true := by
  refine ⟨by decide, by decide, by decide⟩

end SecurityCam
